import Mathlib

/-!
Verification development for the bazel-chatviz BEP processing pipeline.

We shallowly embed the event-aggregation engine and the upload lifecycle:
  * src/backend/app/core/parser.py        (BEPParser: handlers, routing, extraction, graph endpoint)
  * src/services/parser/src/services/bep_parser.py  (the microservice BEPParser variant and its exporters)
  * src/services/celery_worker/src/models/uploads.py (update_upload_status)
  * src/services/celery_worker/src/tasks/tasks.py   (process_bep_file retry/status skeleton)

JSON values are modelled by an inductive `Json`; Python dicts become ordered
association lists (Python 3.7+ dicts preserve insertion order, which the
exporters observe), Python sets of labels become duplicate-free lists (the
iteration order of a Python set is unobservable in the exports, which sort
before emitting), and numbers become rationals (Python int/float values that
occur in the claims).  Events produced by json.loads are modelled as JSON
objects (line-delimited BEP events are objects; non-object JSON values on a
line would crash the handlers and are outside every claim).  Labels and kinds
are modelled as strings, as they are in every BEP stream.
-/

/-- JSON values as decoded by json.loads. -/
inductive Json where
  | null
  | bool (b : Bool)
  | num (q : ℚ)
  | str (s : String)
  | arr (xs : List Json)
  | obj (fields : List (String × Json))

namespace Json

/-- Python truthiness (`bool(x)`) of a decoded JSON value: None, False, 0,
empty string, empty list and empty dict are falsy. -/
def truthy : Json → Bool
  | .null => false
  | .bool b => b
  | .num q => if q = 0 then false else true
  | .str s => if s = "" then false else true
  | .arr xs => !xs.isEmpty
  | .obj fs => !fs.isEmpty

/-- Whether the value is a JSON object (a Python dict). -/
def isObj : Json → Bool
  | .obj _ => true
  | _ => false

end Json

/-- Lookup in an ordered association list (Python dict read `d.get(k)` /
`d[k]`): the first binding for the key, if any. -/
def aget {α : Type} (k : String) : List (String × α) → Option α
  | [] => none
  | (k', v) :: rest => if k' = k then some v else aget k rest

/-- Update of an ordered association list (Python dict write `d[k] = v`): an
existing binding is replaced in place, a new key is appended at the end. -/
def aset {α : Type} (k : String) (v : α) : List (String × α) → List (String × α)
  | [] => [(k, v)]
  | (k', v') :: rest => if k' = k then (k, v) :: rest else (k', v') :: aset k v rest

/-- Python `a or b` on decoded JSON values: `a` when truthy, else `b`. -/
def pyOr (a b : Json) : Json := if a.truthy then a else b

/-- Python `d.get(k)` on an event modelled as a JSON object: None when the key
is absent.  (Calling .get on a non-dict raises in Python; every call site in
the source guards with isinstance or receives a decoded event object.) -/
def jGet (j : Json) (k : String) : Option Json :=
  match j with
  | .obj fs => aget k fs
  | _ => none

/-- Python `d.get(k, default)`. -/
def jGetD (j : Json) (k : String) (d : Json) : Json := (jGet j k).getD d

/-- Whether a key occurs in a JSON object (Python `k in d`). -/
def hasKey (fs : List (String × Json)) (k : String) : Bool := (aget k fs).isSome

/-- ASCII lowercasing of a string (Python str.lower on the ASCII statuses the
parser compares against). -/
def pyLower (s : String) : String := String.mk (s.data.map Char.toLower)

/-- Add an element to a duplicate-free list modelling a Python set
(`s.add(x)`). -/
def sAdd (x : String) (xs : List String) : List String :=
  if x ∈ xs then xs else xs ++ [x]

/-- Union of two set-modelling lists (`s.update(t)`). -/
def sUnion (xs ys : List String) : List String := ys.foldl (fun acc y => sAdd y acc) xs

/-- ASCII whitespace, as stripped by Python str.strip() on BEP lines. -/
def isSpaceChar (c : Char) : Bool :=
  c = ' ' || c = '\t' || c = '\n' || c = '\r' || c = '\x0b' || c = '\x0c'

/-- Python line.strip(): whitespace removed from both ends. -/
def pyStrip (s : String) : String :=
  String.mk (((s.data.dropWhile isSpaceChar).reverse.dropWhile isSpaceChar).reverse)

-- ===========================================================================
-- Data model of the Build Aggregate (parser.py lines 80-117, identical
-- dataclass in the services variant).
-- ===========================================================================

/-- Target dataclass: label, status ("unknown" | "success" | "failure"),
optional kind, dependency set. -/
structure Target where
  label : String
  status : String := "unknown"
  kind : Option String := none
  dependencies : List String := []
deriving DecidableEq

/-- One entry of BEPParser.test_results: status string, passed flag, and the
raw run/attempt payload values (defaulting to 0). -/
structure TestRes where
  status : String
  passed : Bool
  run : Json
  attempt : Json

/-- One entry of BEPParser.resource_series. -/
structure ResourcePoint where
  time : Option ℚ
  cpu : Option ℚ
  memory : Option ℚ
deriving DecidableEq

/-- The mutable state of a BEPParser instance (the Build Aggregate). -/
structure Aggregate where
  events : List Json := []
  targets : List (String × Target) := []
  test_results : List (String × TestRes) := []
  action_count : Nat := 0
  resource_series : List ResourcePoint := []

/-- A freshly constructed BEPParser state. -/
def initAgg : Aggregate := {}

/-- Target constructed as Target(label=label). -/
def mkTarget (label : String) : Target := { label := label }

/-- The id payload's label: `id_payload.get("label")` followed by the
`if not label: return` truthiness guard.  BEP labels are strings; a missing,
empty or non-string value fails the guard. -/
def labelOf (idp : Json) : Option String :=
  match jGetD idp "label" .null with
  | .str s => if s = "" then none else some s
  | _ => none

-- ===========================================================================
-- Handlers (backend parser.py lines 175-268; the services variant shares
-- handle_target_completed verbatim).
-- ===========================================================================

/-- BEPParser._handle_target_completed (parser.py lines 175-185): read the
label, take the first truthy of event["completed"], event["targetCompleted"],
{}, coerce its "success" field to bool, and unconditionally overwrite the
status of the (get-or-created) target. -/
def handle_target_completed (e idp : Json) (p : Aggregate) : Aggregate :=
  match labelOf idp with
  | none => p
  | some label =>
    let details := pyOr (pyOr (jGetD e "completed" (.obj [])) (jGetD e "targetCompleted" (.obj []))) (.obj [])
    let success := (jGetD details "success" (.bool false)).truthy
    let t := (aget label p.targets).getD (mkTarget label)
    let t := { t with status := if success then "success" else "failure" }
    { p with targets := aset label t p.targets }

/-- Labels collected from one dependency value (parser.py lines 215-222):
when the value is a list, string elements are taken directly and dict
elements contribute their "label" field; any other value shape is ignored. -/
def depsOfValue (v : Json) : List String → List String
  | acc =>
    match v with
    | .arr xs =>
      xs.foldl (fun acc x =>
        match x with
        | .str s => sAdd s acc
        | .obj fs =>
          match aget "label" fs with
          | some (.str s) => sAdd s acc
          | _ => acc
        | _ => acc) acc
    | _ => acc

/-- BEPParser._handle_target_configured (parser.py lines 187-228): read the
configured payload from event["configured"] or event["targetConfigured"],
overwrite kind when a new truthy value is present, collect dependency labels
from the "deps" and "dependencies" keys (string or dict-with-label elements
of a list; other shapes ignored) and union them into the target's set. -/
def handle_target_configured (e idp : Json) (p : Aggregate) : Aggregate :=
  match labelOf idp with
  | none => p
  | some label =>
    let t := (aget label p.targets).getD (mkTarget label)
    let cp := pyOr (pyOr (jGetD e "configured" .null) (jGetD e "targetConfigured" .null)) (.obj [])
    let kindJ := pyOr (jGetD cp "targetKind" .null) (jGetD cp "kind" .null)
    let t :=
      match kindJ with
      | .str s => if s = "" then t else { t with kind := some s }
      | _ => t
    let deps := depsOfValue (jGetD cp "dependencies" .null) (depsOfValue (jGetD cp "deps" .null) [])
    let t := if deps.isEmpty then t else { t with dependencies := sUnion t.dependencies deps }
    { p with targets := aset label t p.targets }

/-- BEPParser._handle_action (parser.py lines 230-232): count the action. -/
def handle_action (p : Aggregate) : Aggregate :=
  { p with action_count := p.action_count + 1 }

/-- Membership of the normalized status in ("passed", "pass", "success", "ok"). -/
def passedStatus (s : String) : Bool :=
  s = "passed" || s = "pass" || s = "success" || s = "ok"

/-- BEPParser._handle_test_result (parser.py lines 234-259): lowercase the
status, derive passed, overwrite test_results[label] wholesale, and set the
(get-or-created) target's status from passed only when it is still
"unknown". -/
def handle_test_result (e idp : Json) (p : Aggregate) : Aggregate :=
  match labelOf idp with
  | none => p
  | some label =>
    let payload := jGetD e "testResult" (.obj [])
    let statusJ := pyOr (jGetD payload "status" .null) (.str "")
    let status :=
      match statusJ with
      | .str s => pyLower s
      | _ => ""
    let passed := passedStatus status
    let tr : TestRes :=
      { status := status, passed := passed,
        run := jGetD payload "run" (.num 0), attempt := jGetD payload "attempt" (.num 0) }
    let p := { p with test_results := aset label tr p.test_results }
    let t := (aget label p.targets).getD (mkTarget label)
    let t := if t.status = "unknown" then { t with status := if passed then "success" else "failure" } else t
    { p with targets := aset label t p.targets }

-- ===========================================================================
-- Resource extraction (parser.py lines 272-329; byte-for-byte the same code
-- as maybe_extract_resource_point in the services variant, lines 153-210).
-- ===========================================================================

/-- The helper `get_num = lambda x: float(x) if isinstance(x, (int, float))
else None`.  Python bools are ints, so float(True) is 1.0. -/
def get_num : Json → Option ℚ
  | .num q => some q
  | .bool b => some (if b then 1 else 0)
  | _ => none

/-- Python isinstance(x, (int, float)) on a decoded JSON value. -/
def isPyNumber : Json → Bool
  | .num _ => true
  | .bool _ => true
  | _ => false

/-- Python `cur or new` where both operands are Optional[float]: None and 0.0
are falsy, so a held 0.0 is replaced by `new`. -/
def orNum (cur new : Option ℚ) : Option ℚ :=
  match cur with
  | some q => if q = 0 then new else some q
  | none => new

/-- BEPParser._maybe_extract_resource_point (parser.py lines 272-329):
timestamp from top-level timeMillis (kept only when isinstance int/float)
else timestamp; cpu from progress.resourceUsage.(cpuUsage|cpu|cpu_utilization)
else buildMetrics.timingMetrics.(cpu|utilization|processTimeMs); memory from
progress.resourceUsage.(memoryUsage|memory|mem) else
buildMetrics.memoryMetrics.(peak|highWatermark|used); each candidate chain is
a Python `or` chain, so numeric zeros are passed over.  Appends a point when
at least one of the three was found. -/
def maybe_extract_resource_point (e : Json) (p : Aggregate) : Aggregate :=
  let tm0 := jGetD e "timeMillis" .null
  let tm1 := if isPyNumber tm0 then tm0 else jGetD e "timestamp" .null
  let time_ms := get_num tm1
  let cpu : Option ℚ := none
  let mem : Option ℚ := none
  let cm : Option ℚ × Option ℚ :=
    match jGetD e "progress" .null with
    | .obj pf =>
      match (aget "resourceUsage" pf).getD .null with
      | .obj ru =>
        (orNum cpu (get_num (pyOr (pyOr ((aget "cpuUsage" ru).getD .null) ((aget "cpu" ru).getD .null)) ((aget "cpu_utilization" ru).getD .null))),
         orNum mem (get_num (pyOr (pyOr ((aget "memoryUsage" ru).getD .null) ((aget "memory" ru).getD .null)) ((aget "mem" ru).getD .null))))
      | _ => (cpu, mem)
    | _ => (cpu, mem)
  let cpu := cm.1
  let mem := cm.2
  let cm2 : Option ℚ × Option ℚ :=
    match jGetD e "buildMetrics" .null with
    | .obj bm =>
      let mem2 :=
        match (aget "memoryMetrics" bm).getD .null with
        | .obj mm =>
          orNum mem (get_num (pyOr (pyOr ((aget "peak" mm).getD .null) ((aget "highWatermark" mm).getD .null)) ((aget "used" mm).getD .null)))
        | _ => mem
      let cpu2 :=
        match (aget "timingMetrics" bm).getD .null with
        | .obj tg =>
          orNum cpu (get_num (pyOr (pyOr ((aget "cpu" tg).getD .null) ((aget "utilization" tg).getD .null)) ((aget "processTimeMs" tg).getD .null)))
        | _ => cpu
      (cpu2, mem2)
    | _ => (cpu, mem)
  let cpu := cm2.1
  let mem := cm2.2
  if time_ms.isSome || cpu.isSome || mem.isSome then
    { p with resource_series := p.resource_series ++ [{ time := time_ms, cpu := cpu, memory := mem }] }
  else p

-- ===========================================================================
-- Event routing (backend parser.py lines 147-171; the services variant,
-- bep_parser.py lines 55-76, has the identical id guard and elif chain).
-- ===========================================================================

/-- The elif dispatch chain of _process_event over the keys of event["id"]
(fixed precedence, first match wins; a trailing buildMetrics check looks at
the event itself).  progress and buildMetrics handlers are no-ops. -/
def dispatch (e : Json) (idf : List (String × Json)) (p : Aggregate) : Aggregate :=
  if hasKey idf "targetCompleted" then
    handle_target_completed e ((aget "targetCompleted" idf).getD .null) p
  else if hasKey idf "configuredTarget" || hasKey idf "targetConfigured" then
    handle_target_configured e (pyOr ((aget "configuredTarget" idf).getD .null) ((aget "targetConfigured" idf).getD .null)) p
  else if hasKey idf "actionCompleted" || hasKey idf "actionExecuted" then
    handle_action p
  else if hasKey idf "testResult" then
    handle_test_result e ((aget "testResult" idf).getD .null) p
  else if hasKey idf "progress" then
    p
  else if (jGet e "buildMetrics").isSome then
    p
  else p

/-- BEPParser._process_event (parser.py lines 147-171): read
event.get("id", {}); when it is not a dict, return at once — neither the
dispatch chain nor the resource-extraction pass runs.  Otherwise dispatch and
then always run _maybe_extract_resource_point. -/
def processEvent (e : Json) (p : Aggregate) : Aggregate :=
  match jGetD e "id" (.obj []) with
  | .obj idf => maybe_extract_resource_point e (dispatch e idf p)
  | _ => p

-- ===========================================================================
-- Exception-faithful routing.  The handlers above are total: they treat the
-- points where Python raises AttributeError (a .get on a non-dict payload)
-- as silent guard failures, which is exact on well-formed payloads but not
-- on malformed ones.  The versions below keep Python's exception semantics:
-- a .get on a non-dict value raises, and an exception thrown by a handler
-- propagates past the final _maybe_extract_resource_point call of
-- _process_event (in the backend it aborts the whole parse, parser.py line
-- 141 has no guard; in the services variant parse_stream line 52 swallows
-- it and the event is dropped).  Branches marked unmodelled are points
-- where Python would key a dict or a set by a non-string value, which the
-- string-keyed aggregate cannot represent; no theorem evaluates them.
-- ===========================================================================

/-- Python payload.get(key): AttributeError when the receiver is not a
dict. -/
def pyGet (j : Json) (k : String) : Except String (Option Json) :=
  match j with
  | .obj fs => .ok (aget k fs)
  | _ => .error "AttributeError: get called on a non-dict value"

/-- Exception-faithful _handle_target_completed (parser.py lines 175-185):
id_payload.get("label") raises when the id payload is not a dict, and
details.get("success", False) raises when the first truthy of
event["completed"], event["targetCompleted"] is not a dict. -/
def handle_target_completed_e (e idp : Json) (p : Aggregate) : Except String Aggregate := do
  let labelJ := (← pyGet idp "label").getD .null
  if labelJ.truthy then
    match labelJ with
    | .str label => do
      let details := pyOr (pyOr (jGetD e "completed" (.obj [])) (jGetD e "targetCompleted" (.obj []))) (.obj [])
      let success := ((← pyGet details "success").getD (.bool false)).truthy
      let t := (aget label p.targets).getD (mkTarget label)
      let t := { t with status := if success then "success" else "failure" }
      pure { p with targets := aset label t p.targets }
    | _ => .error "unmodelled: truthy non-string label used as a dict key"
  else
    pure p

/-- Exception-faithful _handle_target_configured (parser.py lines 187-228):
the label read raises on a non-dict id payload (in particular on the None
that `event_id.get("configuredTarget") or event_id.get("targetConfigured")`
yields when both values are falsy), and the kind read raises when the
configured payload is truthy but not a dict. -/
def handle_target_configured_e (e idp : Json) (p : Aggregate) : Except String Aggregate := do
  let labelJ := (← pyGet idp "label").getD .null
  if labelJ.truthy then
    match labelJ with
    | .str label => do
      let t := (aget label p.targets).getD (mkTarget label)
      let cp := pyOr (pyOr (jGetD e "configured" .null) (jGetD e "targetConfigured" .null)) (.obj [])
      let kindJ := pyOr ((← pyGet cp "targetKind").getD .null) ((← pyGet cp "kind").getD .null)
      match kindJ with
      | .null => finish label t cp p
      | .bool b => if b then .error "unmodelled: truthy non-string kind stored" else finish label t cp p
      | .num q => if q = 0 then finish label t cp p else .error "unmodelled: truthy non-string kind stored"
      | .str s => finish label (if s = "" then t else { t with kind := some s }) cp p
      | .arr xs => if xs.isEmpty then finish label t cp p else .error "unmodelled: truthy non-string kind stored"
      | .obj fs => if fs.isEmpty then finish label t cp p else .error "unmodelled: truthy non-string kind stored"
    | _ => .error "unmodelled: truthy non-string label used as a dict key"
  else
    pure p
where
  finish (label : String) (t : Target) (cp : Json) (p : Aggregate) : Except String Aggregate :=
    let deps := depsOfValue (jGetD cp "dependencies" .null) (depsOfValue (jGetD cp "deps" .null) [])
    let t := if deps.isEmpty then t else { t with dependencies := sUnion t.dependencies deps }
    .ok { p with targets := aset label t p.targets }

/-- Exception-faithful _handle_test_result (parser.py lines 234-259): the
label read raises on a non-dict id payload, payload.get("status") raises
when event["testResult"] is present and not a dict, and .lower() raises
when the status value is truthy but not a string. -/
def handle_test_result_e (e idp : Json) (p : Aggregate) : Except String Aggregate := do
  let labelJ := (← pyGet idp "label").getD .null
  if labelJ.truthy then
    match labelJ with
    | .str label => do
      let payload := jGetD e "testResult" (.obj [])
      let statusJ := pyOr ((← pyGet payload "status").getD .null) (.str "")
      match statusJ with
      | .str s =>
        let status := pyLower s
        let passed := passedStatus status
        let tr : TestRes :=
          { status := status, passed := passed,
            run := (← pyGet payload "run").getD (.num 0),
            attempt := (← pyGet payload "attempt").getD (.num 0) }
        let p := { p with test_results := aset label tr p.test_results }
        let t := (aget label p.targets).getD (mkTarget label)
        let t := if t.status = "unknown" then { t with status := if passed then "success" else "failure" } else t
        pure { p with targets := aset label t p.targets }
      | _ => .error "AttributeError: lower called on a non-string status"
    | _ => .error "unmodelled: truthy non-string label used as a dict key"
  else
    pure p

/-- Exception-faithful elif dispatch chain of _process_event. -/
def dispatch_e (e : Json) (idf : List (String × Json)) (p : Aggregate) : Except String Aggregate :=
  if hasKey idf "targetCompleted" then
    handle_target_completed_e e ((aget "targetCompleted" idf).getD .null) p
  else if hasKey idf "configuredTarget" || hasKey idf "targetConfigured" then
    handle_target_configured_e e (pyOr ((aget "configuredTarget" idf).getD .null) ((aget "targetConfigured" idf).getD .null)) p
  else if hasKey idf "actionCompleted" || hasKey idf "actionExecuted" then
    .ok (handle_action p)
  else if hasKey idf "testResult" then
    handle_test_result_e e ((aget "testResult" idf).getD .null) p
  else if hasKey idf "progress" then
    .ok p
  else if (jGet e "buildMetrics").isSome then
    .ok p
  else .ok p

/-- Exception-faithful _process_event (parser.py lines 147-171): a present
non-dict "id" returns before extraction; a dict id dispatches, and only
when the handler returns normally does _maybe_extract_resource_point run -
a handler exception propagates past it, so the event contributes no
ResourcePoint. -/
def processEventE (e : Json) (p : Aggregate) : Except String Aggregate :=
  match jGetD e "id" (.obj []) with
  | .obj idf =>
    match dispatch_e e idf p with
    | .ok p1 => .ok (maybe_extract_resource_point e p1)
    | .error msg => .error msg
  | _ => .ok p

-- ===========================================================================
-- View exporters (services bep_parser.py lines 212-301) and the backend
-- graph endpoint (parser.py lines 385-458).
-- ===========================================================================

/-- The safe_id helper of both graph exporters: every "/" and ":" replaced by
"_" (two sequential single-character str.replace calls, equivalent to one
character map). -/
def safe_id (s : String) : String :=
  String.mk (s.data.map (fun c => if c = '/' || c = ':' then '_' else c))

/-- Python label.split("/") for the single-character separator: splitting on
every slash, keeping empty segments, with [""] for the empty string. -/
def splitSlashChars : List Char → List (List Char)
  | [] => [[]]
  | c :: cs =>
    let r := splitSlashChars cs
    if c = '/' then [] :: r
    else
      match r with
      | [] => [[c]]
      | g :: gs => (c :: g) :: gs

/-- String-level wrapper of the slash split. -/
def splitSlash (s : String) : List String :=
  (splitSlashChars s.data).map String.mk

/-- Lexicographic comparison of strings by code point, the order Python
sorted() uses on str. -/
def lexLe : List Char → List Char → Bool
  | [], _ => true
  | _ :: _, [] => false
  | a :: as, b :: bs => if a = b then lexLe as bs else decide (a.toNat < b.toNat)

/-- Boolean string comparison used for sorting. -/
def strLe (a b : String) : Bool := lexLe a.data b.data

/-- Insertion into a lexicographically sorted list of strings. -/
def insertSorted (x : String) : List String → List String
  | [] => [x]
  | y :: ys => if strLe x y then x :: y :: ys else y :: insertSorted x ys

/-- Python sorted() on a list of strings (lexicographic by code point). -/
def sortStrings (xs : List String) : List String := xs.foldr insertSorted []

/-- Distinct elements of a list, first occurrence kept (the contents of a
Python set comprehension; the exporters sort the result, so the order in
which we keep them is unobservable). -/
def dedupStrings (xs : List String) : List String :=
  xs.foldl (fun acc x => sAdd x acc) []

/-- Deterministic JSON serialization standing in for json.dumps (object keys
kept in insertion order, exactly as Python renders them; the precise byte
format of numbers and escapes is irrelevant to every claim, which only
compare one rendering with another). -/
def renderJson : Json → String
  | .null => "null"
  | .bool b => if b then "true" else "false"
  | .num q => toString q
  | .str s => "\"" ++ s ++ "\""
  | .arr xs => "[" ++ renderArr xs ++ "]"
  | .obj fs => "\x7b" ++ renderObj fs ++ "\x7d"
where
  renderArr : List Json → String
    | [] => ""
    | [x] => renderJson x
    | x :: xs => renderJson x ++ ", " ++ renderArr xs
  renderObj : List (String × Json) → String
    | [] => ""
    | [(k, v)] => "\"" ++ k ++ "\": " ++ renderJson v
    | (k, v) :: fs => "\"" ++ k ++ "\": " ++ renderJson v ++ ", " ++ renderObj fs

/-- Option float to JSON (None becomes null in the dumped payload). -/
def optNum : Option ℚ → Json
  | some q => .num q
  | none => .null

/-- Option string to JSON (a never-configured kind dumps as null). -/
def optStr : Option String → Json
  | some s => .str s
  | none => .null

/-- The group of a target node: gid_parts = label.split("/");
group = gid_parts[1] if len(gid_parts) > 1 else "root". -/
def nodeGroup (label : String) : String :=
  ((splitSlash label).get? 1).getD "root"

/-- The display label of a node: label.split("/")[-1]. -/
def nodeLabel (label : String) : String :=
  ((splitSlash label).getLast?).getD ""

/-- The node dict built for one target by both graph exporters. -/
def targetNode (label : String) (t : Target) : Json :=
  .obj [("id", .str (safe_id label)),
        ("originalId", .str label),
        ("label", .str (nodeLabel label)),
        ("type", .str "target"),
        ("status", .str t.status),
        ("kind", optStr t.kind),
        ("group", .str (nodeGroup label))]

/-- The node dict built for one test result by both graph exporters. -/
def testNode (label : String) (tr : TestRes) : Json :=
  .obj [("id", .str (safe_id label ++ "__test")),
        ("originalId", .str label),
        ("label", .str (nodeLabel label)),
        ("type", .str "test"),
        ("status", .str (if tr.passed then "passed" else "failed")),
        ("group", .str "tests")]

/-- The test-to-target edge built by both graph exporters. -/
def testEdge (label : String) : Json :=
  .obj [("id", .str (safe_id label ++ "__test->" ++ safe_id label)),
        ("source", .str (safe_id label ++ "__test")),
        ("target", .str (safe_id label)),
        ("type", .str "test")]

/-- One dependency edge of the services export_graph (bep_parser.py lines
255-261): id is "safeid(label)-safeid(dep)", but source is the DEPENDENCY and
target is the owning TARGET label. -/
def svcDepEdge (label dep : String) : Json :=
  .obj [("id", .str (safe_id label ++ "-" ++ safe_id dep)),
        ("source", .str (safe_id dep)),
        ("target", .str (safe_id label)),
        ("type", .str "dependency")]

/-- One dependency edge of the backend get_graph (parser.py lines 417-425):
source is the owning target, target is the dependency. -/
def backendDepEdge (label dep : String) : Json :=
  .obj [("id", .str (safe_id label ++ "-" ++ safe_id dep)),
        ("source", .str (safe_id label)),
        ("target", .str (safe_id dep)),
        ("type", .str "dependency")]

/-- The group values of a node list, for the metadata groups set. -/
def groupsOf (nodes : List Json) : List String :=
  nodes.foldr (fun n acc =>
    match jGet n "group" with
    | some (.str s) => s :: acc
    | _ => acc) []

/-- The payload dict built by the services export_graph (bep_parser.py lines
232-289): target nodes in dict order with their sorted dependency edges
(source = dependency, target = owning label), then test nodes and test
edges, then metadata (note the services key "actionSeen"). -/
def export_graph_json (p : Aggregate) : Json :=
  let targetPart := p.targets.map (fun (label, t) =>
    (targetNode label t, (sortStrings t.dependencies).map (fun dep => svcDepEdge label dep)))
  let testPart := p.test_results.map (fun (label, tr) => (testNode label tr, testEdge label))
  let nodes := targetPart.map Prod.fst ++ testPart.map Prod.fst
  let edges := (targetPart.map Prod.snd).flatten ++ testPart.map Prod.snd
  .obj [("nodes", .arr nodes),
        ("edges", .arr edges),
        ("metadata", .obj [
          ("totalTargets", .num p.targets.length),
          ("totalTests", .num p.test_results.length),
          ("actionSeen", .num p.action_count),
          ("groups", .arr ((sortStrings (dedupStrings (groupsOf nodes))).map Json.str))])]

/-- BEPParser.export_graph (services, lines 232-291): dump the payload and
leave the parser state untouched (the body only reads self). -/
def export_graph (p : Aggregate) : String × Aggregate :=
  (renderJson (export_graph_json p), p)

/-- The payload dict of the backend get_graph endpoint (parser.py lines
385-458): identical nodes, but each dependency edge has source = owning
target and target = dependency, and the metadata key is "actionsSeen". -/
def get_graph (p : Aggregate) : Json :=
  let targetPart := p.targets.map (fun (label, t) =>
    (targetNode label t, (sortStrings t.dependencies).map (fun dep => backendDepEdge label dep)))
  let testPart := p.test_results.map (fun (label, tr) => (testNode label tr, testEdge label))
  let nodes := targetPart.map Prod.fst ++ testPart.map Prod.fst
  let edges := (targetPart.map Prod.snd).flatten ++ testPart.map Prod.snd
  .obj [("nodes", .arr nodes),
        ("edges", .arr edges),
        ("metadata", .obj [
          ("totalTargets", .num p.targets.length),
          ("totalTests", .num p.test_results.length),
          ("actionsSeen", .num p.action_count),
          ("groups", .arr ((sortStrings (dedupStrings (groupsOf nodes))).map Json.str))])]

/-- BEPParser.export_summary (services, lines 294-301): counts and the
resource-usage flag, dumped; the state is only read. -/
def export_summary (p : Aggregate) : String × Aggregate :=
  (renderJson (.obj [
    ("targets", .num p.targets.length),
    ("tests", .num p.test_results.length),
    ("actions", .num p.action_count),
    ("has_resource_usage", .bool (decide (p.resource_series.length > 0)))]), p)

/-- BEPParser.export_resource_usage (services, lines 212-229): the three
parallel projections of the resource series plus the count, dumped; the
state is only read. -/
def export_resource_usage (p : Aggregate) : String × Aggregate :=
  (renderJson (.obj [
    ("time", .arr (p.resource_series.map (fun pt => optNum pt.time))),
    ("cpu", .arr (p.resource_series.map (fun pt => optNum pt.cpu))),
    ("memory", .arr (p.resource_series.map (fun pt => optNum pt.memory))),
    ("count", .num p.resource_series.length)]), p)

-- ===========================================================================
-- Upload lifecycle store (celery_worker/src/models/uploads.py; the backend
-- variant, backend/app/models/uploads.py lines 43-51, is the same mutation
-- logic without the output_location parameter).
-- ===========================================================================

/-- The four lifecycle states of UploadStatus. -/
inductive UploadStatus where
  | uploading
  | processing
  | completed
  | failed
deriving DecidableEq

/-- An UploadRecord as persisted by the lifecycle store.  The datetime value
of completed_at is outside the embedding; only whether it has been set is
modelled. -/
structure UploadRecord where
  file_id : String
  s3_key : String
  status : UploadStatus := .uploading
  completed_at_set : Bool := false
  error_message : Option String := none
  output_json_url : Option String := none
deriving DecidableEq

/-- The persisted keyspace of lifecycle records (redis keys upload:file_id;
an in-memory dict in the backend variant). -/
def Store := List (String × UploadRecord)

/-- update_upload_status (celery_worker uploads.py lines 72-84): fetch the
record (return silently when absent), overwrite status unconditionally, set
completed_at when the new status is COMPLETED or FAILED, and store truthy
error_message / output_location values.  No guard inspects the previous
status. -/
def update_upload_status (store : Store) (fid : String) (st : UploadStatus)
    (err out : Option String) : Store :=
  match aget fid store with
  | none => store
  | some r =>
    let r := { r with status := st }
    let r := if st = .completed || st = .failed then { r with completed_at_set := true } else r
    let r :=
      match err with
      | some m => if m = "" then r else { r with error_message := some m }
      | none => r
    let r :=
      match out with
      | some o => if o = "" then r else { r with output_json_url := some o }
      | none => r
    aset fid r store

/-- Status of the record for a file id, as a poller reads it. -/
def statusOf (store : Store) (fid : String) : Option UploadStatus :=
  (aget fid store).map (fun r => r.status)

/-- Error message of the record for a file id. -/
def errorOf (store : Store) (fid : String) : Option (Option String) :=
  (aget fid store).map (fun r => r.error_message)

-- ===========================================================================
-- Orchestrator retry/status skeleton (celery_worker tasks.py lines 26-110).
-- The fetch-and-process body of one attempt is abstracted by its outcome:
-- the claims under test stipulate, per attempt, whether the storage fetch
-- raises a transient error (botocore ClientError/BotoCoreError) or the
-- attempt succeeds.  The status writes and the retry decisions are the
-- translated code: PROCESSING at entry; on success the three artifacts are
-- written under processed/file_id/ and COMPLETED is recorded with that
-- prefix; on a transient storage error the except branch runs
-- `raise self.retry(exc=s3_err)` inside `try ... except Exception`, so the
-- Retry (or, once the budget is gone, the original error) is caught and
-- FAILED is written with the error text BEFORE the exception re-raises —
-- whether or not celery will still run another attempt. -/

/-- Outcome of the storage interaction of one attempt. -/
inductive FetchOutcome where
  | transient (msg : String)
  | ok

/-- The max_retries=1 argument of @app.task on process_bep_file. -/
def celery_max_retries : Nat := 1

/-- One celery delivery chain of process_bep_file: `k` is the current retry
count, `left` the number of attempts that may still start (celery runs the
initial attempt plus at most max_retries retries). -/
def process_bep_file_attempts (outcome : Nat → FetchOutcome) (fid : String) :
    Nat → Nat → Store → Store
  | _, 0, store => store
  | k, left + 1, store =>
    let store := update_upload_status store fid .processing none none
    match outcome k with
    | .ok => update_upload_status store fid .completed none (some ("processed/" ++ fid ++ "/"))
    | .transient m =>
      let store := update_upload_status store fid .failed (some m) none
      if k < celery_max_retries then
        process_bep_file_attempts outcome fid (k + 1) left store
      else
        store

/-- Full run of one enqueued process_bep_file job under celery's retry
budget. -/
def process_bep_file_run (outcome : Nat → FetchOutcome) (fid : String) (store : Store) : Store :=
  process_bep_file_attempts outcome fid 0 (celery_max_retries + 1) store

-- ===========================================================================
-- Services parser variant (services/parser/src/services/bep_parser.py).
-- Its handle_target_completed, maybe_extract_resource_point and the
-- process_event id guard are byte-for-byte the backend code modelled above;
-- the declarations below model the points where the variant differs.
-- ===========================================================================

/-- handle_target_configured of the services variant (bep_parser.py lines
90-114).  Line 97 reads `configured_payload = event.get("targetKind") or
configured_payload.get("kind")`: the right operand names the variable being
assigned, so unless event["targetKind"] is truthy the handler raises
UnboundLocalError; when it is truthy but not a dict, the next line's .get
raises AttributeError.  When it survives, the dependency loop (lines
104-109) accepts ONLY dict elements carrying a "label" key - list elements
that are plain strings are skipped. -/
def svc_handle_target_configured (e idp : Json) (p : Aggregate) : Except String Aggregate :=
  match labelOf idp with
  | none => .ok p
  | some label =>
    let t := (aget label p.targets).getD (mkTarget label)
    let tkv := jGetD e "targetKind" .null
    if tkv.truthy then
      match tkv with
      | .obj fs =>
        let kindJ := pyOr ((aget "targetKind" fs).getD .null) ((aget "kind" fs).getD .null)
        let t :=
          match kindJ with
          | .str s => if s = "" then t else { t with kind := some s }
          | _ => t
        let deps := svcDeps ((aget "dependencies" fs).getD .null) (svcDeps ((aget "deps" fs).getD .null) [])
        let t := if deps.isEmpty then t else { t with dependencies := sUnion t.dependencies deps }
        .ok { p with targets := aset label t p.targets }
      | _ => .error "AttributeError: get on a non-dict targetKind value"
    else
      .error "UnboundLocalError: local variable configured_payload referenced before assignment"
where
  svcDeps (v : Json) (acc : List String) : List String :=
    match v with
    | .arr xs =>
      xs.foldl (fun acc x =>
        match x with
        | .obj fs =>
          match aget "label" fs with
          | some (.str s) => sAdd s acc
          | _ => acc
        | _ => acc) acc
    | _ => acc

/-- handle_test_result of the services variant (bep_parser.py lines
121-140): after computing status and passed it assigns into
`self.test_result`, an attribute that the class never defines (the field is
named test_results), so the handler raises AttributeError before mutating
any state. -/
def svc_handle_test_result (_e idp : Json) (p : Aggregate) : Except String Aggregate :=
  match labelOf idp with
  | none => .ok p
  | some _label =>
    .error "AttributeError: BEPParser object has no attribute test_result"

/-- process_event of the services variant (bep_parser.py lines 55-76): the
same id guard and elif chain as the backend, dispatching to the services
handlers; a handler exception propagates past the final
maybe_extract_resource_point call, which therefore does not run for that
event. -/
def svc_process_event (e : Json) (p : Aggregate) : Except String Aggregate :=
  match jGetD e "id" (.obj []) with
  | .obj idf => do
    let p1 ←
      if hasKey idf "targetCompleted" then
        .ok (handle_target_completed e ((aget "targetCompleted" idf).getD .null) p)
      else if hasKey idf "configuredTarget" || hasKey idf "targetConfigured" then
        svc_handle_target_configured e (pyOr ((aget "configuredTarget" idf).getD .null) ((aget "targetConfigured" idf).getD .null)) p
      else if hasKey idf "actionCompleted" || hasKey idf "actionExecuted" then
        .ok (handle_action p)
      else if hasKey idf "testResult" then
        svc_handle_test_result e ((aget "testResult" idf).getD .null) p
      else
        .ok p
    .ok (maybe_extract_resource_point e p1)
  | _ => .ok p

/-- The per-line loop of the services parse_stream (bep_parser.py lines
41-53), parameterized over the stdlib JSON decoder: strip each line, skip
blanks, skip lines json.loads rejects, append decoded events, and swallow
any process_event exception (keeping the state mutated so far, which for the
raising handlers is the state from before the handler ran). -/
def svc_parse_stream_loop (jloads : String → Option Json) (lines : List String)
    (p : Aggregate) : Aggregate :=
  lines.foldl (fun acc raw =>
    let line := pyStrip raw
    if line = "" then acc
    else
      match jloads line with
      | none => acc
      | some ev =>
        let acc := { acc with events := acc.events ++ [ev] }
        match svc_process_event ev acc with
        | .ok p2 => p2
        | .error _ => acc) p

/-- parse_stream of the services variant (bep_parser.py lines 38-53): its
first statement is `self.reset()`, but the services BEPParser class defines
no reset method (only the backend variant does), so every call raises
AttributeError before a single line is read and the loop above is dead
code. -/
def svc_parse_stream (_lines : List String) : Except String Aggregate :=
  .error "AttributeError: BEPParser object has no attribute reset"

/-- The body of process_bep_file after a successful storage fetch (tasks.py
lines 30-97): set PROCESSING, run parse_stream over the decoded lines, then
export and store the three artifacts and set COMPLETED with the artifact
prefix.  An exception out of parse_stream is no botocore error, so it falls
to the final `except Exception` (lines 107-110), which sets FAILED with the
error text. -/
def process_fetched_job (lines : List String) (fid : String) (store : Store) : Store :=
  let store := update_upload_status store fid .processing none none
  match svc_parse_stream lines with
  | .error e => update_upload_status store fid .failed (some e) none
  | .ok _p => update_upload_status store fid .completed none (some ("processed/" ++ fid ++ "/"))

-- ===========================================================================
-- Concrete scenario data used by the claim theorems.
-- ===========================================================================

/-- An event whose "id" field is present but not a dict, carrying a
timestamp that resource extraction would capture. -/
def c1Event : Json := .obj [("id", .str "x"), ("timeMillis", .num 100)]

/-- The same timestamp-carrying event without any "id" field. -/
def c1EventNoId : Json := .obj [("timeMillis", .num 100)]

/-- A timestamp-carrying event whose "id" IS a dict, but whose
targetCompleted id payload is a string, so the dispatched handler raises on
id_payload.get("label") before the extraction call. -/
def c1EventBadPayload : Json :=
  .obj [("id", .obj [("targetCompleted", .str "x")]), ("timeMillis", .num 100)]

/-- A timestamp-carrying event with an empty dict id: no handler branch
matches and extraction runs. -/
def c1EventEmptyId : Json := .obj [("id", .obj []), ("timeMillis", .num 100)]

/-- A target-completed event for label L: id.targetCompleted.label = L and
completed.success = succ. -/
def evTargetCompleted (L : String) (succ : Bool) : Json :=
  .obj [("id", .obj [("targetCompleted", .obj [("label", .str L)])]),
        ("completed", .obj [("success", .bool succ)])]

/-- A test-result event for label L with the given status string. -/
def evTestResult (L st : String) : Json :=
  .obj [("id", .obj [("testResult", .obj [("label", .str L)])]),
        ("testResult", .obj [("status", .str st)])]

/-- Processing a list of decoded events from a fresh parser state. -/
def runEvents (evs : List Json) : Aggregate :=
  evs.foldl (fun p e => processEvent e p) initAgg

/-- The recorded status of the target for a label. -/
def targetStatus (p : Aggregate) (L : String) : Option String :=
  (aget L p.targets).map (fun t => t.status)

/-- Indexing into a JSON array (null out of range), for reading exported
nodes and edges. -/
def jIndex (j : Json) (i : Nat) : Json :=
  match j with
  | .arr xs => (xs.get? i).getD .null
  | _ => .null

/-- Aggregate holding one target "//a:b" with the single dependency
"//c:d". -/
def aggC5 : Aggregate :=
  { initAgg with targets := [("//a:b", { mkTarget "//a:b" with dependencies := ["//c:d"] })] }

/-- Aggregate holding the single target "//pkg/sub:name". -/
def aggC7 : Aggregate :=
  { initAgg with targets := [("//pkg/sub:name", mkTarget "//pkg/sub:name")] }

/-- A target-configured event whose configured payload carries deps as a
list of plain label strings. -/
def c6Event : Json := .obj [("configured", .obj [("deps", .arr [.str "//c:d"])])]

/-- A target-configured event whose configured payload carries dependencies
as a list of objects with a "label" field. -/
def c6EventB : Json :=
  .obj [("configured", .obj [("dependencies", .arr [.obj [("label", .str "//e:f")]])])]

/-- The id payload of the target-configured events: label "//a:b". -/
def c6IdPayload : Json := .obj [("label", .str "//a:b")]

/-- A life-cycle record already in the terminal COMPLETED state. -/
def recCompleted : UploadRecord :=
  { file_id := "f", s3_key := "k", status := .completed, completed_at_set := true }

/-- A life-cycle record in PROCESSING, as the orchestrator sees it when a
job starts. -/
def recProcessing : UploadRecord := { file_id := "f", s3_key := "k", status := .processing }

/-- Fetch raises a transient storage error on attempts 1 and 2 and succeeds
on attempt 3 (0-based attempt index). -/
def failTwiceThenOk : Nat → FetchOutcome :=
  fun k => if k < 2 then .transient "storage unreachable" else .ok

/-- Fetch raises a transient storage error on every attempt. -/
def alwaysTransient : Nat → FetchOutcome := fun _ => .transient "storage unreachable"

/-- Fetch raises a transient storage error on attempt 1 only. -/
def failOnceThenOk : Nat → FetchOutcome :=
  fun k => if k = 0 then .transient "storage unreachable" else .ok

/-- The stdlib JSON decoder restricted to an all-malformed stream: every
line is rejected. -/
def jloadsNone : String → Option Json := fun _ => none

-- ===========================================================================
-- Theorems.
-- ===========================================================================

/-- Reading back the binding just written into an association list. -/
theorem aget_aset {α : Type} (k : String) (v : α) :
    ∀ l : List (String × α), aget k (aset k v l) = some v := by
  intro l
  induction l with
  | nil => simp [aget, aset]
  | cons hd tl ih =>
    obtain ⟨k', v'⟩ := hd
    by_cases hk : k' = k
    · simp [aget, aset, hk]
    · simp [aget, aset, hk, ih]

/-- C1 (corrected).  The resource-extraction pass does NOT run on every
decoded event.  What holds of the exception-faithful routing: an event
whose "id" is present and not a dict is skipped entirely (no
classification, no extraction, no exception); an event whose "id" is
absent (event.get("id", {}) defaults to the empty dict) always reaches
extraction with the aggregate untouched by any handler; and for a
dict-shaped id, extraction runs exactly when the dispatched handler returns
normally - a handler exception (such as the AttributeError raised by
id_payload.get("label") when the id payload is not a dict) propagates past
the extraction call, so that event contributes no ResourcePoint either. -/
theorem c1_resource_extraction_guard (e : Json) (p : Aggregate) :
    ((jGetD e "id" (.obj [])).isObj = false → processEventE e p = .ok p)
    ∧ (jGet e "id" = none → processEventE e p = .ok (maybe_extract_resource_point e p))
    ∧ (∀ idf p1, jGet e "id" = some (.obj idf) → dispatch_e e idf p = .ok p1 →
        processEventE e p = .ok (maybe_extract_resource_point e p1))
    ∧ (∀ idf msg, jGet e "id" = some (.obj idf) → dispatch_e e idf p = .error msg →
        processEventE e p = .error msg) := by
  refine ⟨?_, ?_, ?_, ?_⟩
  · intro h
    unfold processEventE
    cases hid : jGetD e "id" (.obj []) <;> simp_all [Json.isObj]
  · intro h
    have hd : dispatch_e e [] p = .ok p := by
      unfold dispatch_e
      simp [hasKey, aget]
    unfold processEventE
    rw [jGetD, h]
    show (match dispatch_e e [] p with
          | .ok p1 => Except.ok (maybe_extract_resource_point e p1)
          | .error msg => Except.error msg) = .ok (maybe_extract_resource_point e p)
    rw [hd]
  · intro idf p1 h hd
    unfold processEventE
    rw [jGetD, h]
    show (match dispatch_e e idf p with
          | .ok p1 => Except.ok (maybe_extract_resource_point e p1)
          | .error msg => Except.error msg) = .ok (maybe_extract_resource_point e p1)
    rw [hd]
  · intro idf msg h hd
    unfold processEventE
    rw [jGetD, h]
    show (match dispatch_e e idf p with
          | .ok p1 => Except.ok (maybe_extract_resource_point e p1)
          | .error msg => Except.error msg) = .error msg
    rw [hd]

/-- Witness for C1: instantiates all four cases of the guard theorem at
concrete events - a non-dict id, an absent id, an empty dict id whose
dispatch returns normally, and a dict id whose targetCompleted payload is
the string "x" so the handler raises. -/
theorem c1_resource_extraction_guard_witness :
    (processEventE c1Event initAgg = .ok initAgg)
    ∧ (processEventE c1EventNoId initAgg = .ok (maybe_extract_resource_point c1EventNoId initAgg))
    ∧ (processEventE c1EventEmptyId initAgg
        = .ok (maybe_extract_resource_point c1EventEmptyId initAgg))
    ∧ (processEventE c1EventBadPayload initAgg
        = .error "AttributeError: get called on a non-dict value") :=
  ⟨(c1_resource_extraction_guard c1Event initAgg).1 rfl,
   (c1_resource_extraction_guard c1EventNoId initAgg).2.1 rfl,
   (c1_resource_extraction_guard c1EventEmptyId initAgg).2.2.1 [] initAgg rfl rfl,
   (c1_resource_extraction_guard c1EventBadPayload initAgg).2.2.2
     [("targetCompleted", Json.str "x")] "AttributeError: get called on a non-dict value" rfl rfl⟩

/-- Counterexample for C1 as stated: the event with the non-dict id "x" and
timeMillis 100 is claimed to still yield a ResourcePoint, but processing it
changes nothing; and the event whose dict id holds the string
targetCompleted payload "x" raises in the handler before the extraction
call, so it yields no ResourcePoint either (the backend parse aborts there,
the services variant swallows the error and drops the event).  Only the
event with no id at all yields the point. -/
theorem c1_counterexample :
    processEventE c1Event initAgg = .ok initAgg
    ∧ processEventE c1EventBadPayload initAgg
        = .error "AttributeError: get called on a non-dict value"
    ∧ (processEventE c1EventNoId initAgg).map (fun p => p.resource_series)
        = .ok [{ time := some 100, cpu := none, memory := none }] :=
  ⟨rfl, rfl, rfl⟩

/-- C2 (code_bug).  Under the code's decorator max_retries=1 there are at
most two attempts, so a job whose fetch raises transient errors on attempts
1 and 2 never reaches the succeeding attempt 3 and its record ends FAILED,
not COMPLETED; moreover the except branch wraps `raise self.retry(...)` in
`try ... except Exception`, so FAILED is written after attempt 1 already,
while a retry is still pending (second conjunct: the store after the first
attempt alone).  Only the always-failing conjuncts (FAILED with the error
message preserved) and the fail-once-then-succeed run (COMPLETED) behave as
the spec describes. -/
theorem c2_retry_budget_eval :
    statusOf (process_bep_file_run failTwiceThenOk "f" [("f", recProcessing)]) "f" = some .failed
    ∧ statusOf (process_bep_file_attempts failTwiceThenOk "f" 0 1 [("f", recProcessing)]) "f"
        = some .failed
    ∧ statusOf (process_bep_file_run alwaysTransient "f" [("f", recProcessing)]) "f" = some .failed
    ∧ errorOf (process_bep_file_run alwaysTransient "f" [("f", recProcessing)]) "f"
        = some (some "storage unreachable")
    ∧ statusOf (process_bep_file_run failOnceThenOk "f" [("f", recProcessing)]) "f"
        = some .completed := by
  refine ⟨?_, ?_, ?_, ?_, ?_⟩ <;> decide

/-- Counterexample for C3 as stated: a record already COMPLETED is moved
back to PROCESSING by a subsequent call to the status-update operation -
nothing in update_upload_status guards terminal states. -/
theorem c3_terminal_counterexample :
    statusOf (update_upload_status [("f", recCompleted)] "f" .processing none none) "f"
      = some .processing
    ∧ statusOf [("f", recCompleted)] "f" = some .completed := by
  exact ⟨by decide, by decide⟩

/-- C3 (corrected, amended part).  update_upload_status overwrites the
status of an existing record unconditionally, whatever its previous state
(terminal or not): the stored status after the call is always the requested
one.  Terminality of COMPLETED/FAILED is only a calling discipline of the
orchestrator, not a property enforced by the store. -/
theorem c3_status_overwrite (store : Store) (fid : String) (st : UploadStatus)
    (err out : Option String) (r : UploadRecord) (h : aget fid store = some r) :
    statusOf (update_upload_status store fid st err out) fid = some st := by
  unfold update_upload_status statusOf
  rw [h]
  cases err <;> cases out <;> simp [aget_aset] <;> split_ifs <;> rfl

/-- Witness for C3: the overwrite theorem applied to a COMPLETED record and
a PROCESSING request. -/
theorem c3_status_overwrite_witness :
    statusOf (update_upload_status [("f", recCompleted)] "f" .processing none none) "f"
      = some .processing :=
  c3_status_overwrite [("f", recCompleted)] "f" .processing none none recCompleted rfl

/-- C4 (confirmed).  Processing target-completed(L, success=true) then
test-result(L, "FAILED") leaves the target status "success" (the test
result never overwrites a decided status), while processing
test-result(L, "PASSED") then target-completed(L, success=false) leaves it
"failure" (target-completed always overwrites). -/
theorem c4_order_sensitivity (L : String) (h : L ≠ "") :
    targetStatus (runEvents [evTargetCompleted L true, evTestResult L "FAILED"]) L
      = some "success"
    ∧ targetStatus (runEvents [evTestResult L "PASSED", evTargetCompleted L false]) L
      = some "failure" := by
  constructor <;>
    simp [runEvents, evTargetCompleted, evTestResult, processEvent, dispatch, hasKey,
      jGetD, jGet, aget, labelOf, handle_target_completed, handle_test_result,
      maybe_extract_resource_point, pyOr, Json.truthy, aset, targetStatus, h,
      mkTarget, pyLower, passedStatus, get_num, isPyNumber, orNum]

/-- Witness for C4 at the concrete label "//a:b". -/
theorem c4_order_sensitivity_witness :
    targetStatus (runEvents [evTargetCompleted "//a:b" true, evTestResult "//a:b" "FAILED"]) "//a:b"
      = some "success"
    ∧ targetStatus (runEvents [evTestResult "//a:b" "PASSED", evTargetCompleted "//a:b" false]) "//a:b"
      = some "failure" :=
  c4_order_sensitivity "//a:b" (by decide)

/-- C5 (code_bug).  For the aggregate holding target "//a:b" with dependency
"//c:d", the services export_graph emits the dependency edge with source
"__c_d" (the dependency) and target "__a_b" (the owning target) - the
reverse of the claimed direction - while the backend get_graph emits source
"__a_b" and target "__c_d" exactly as the claim states. -/
theorem c5_edge_direction_eval :
    jGetD (jIndex (jGetD (export_graph_json aggC5) "edges" .null) 0) "source" .null
      = .str "__c_d"
    ∧ jGetD (jIndex (jGetD (export_graph_json aggC5) "edges" .null) 0) "target" .null
      = .str "__a_b"
    ∧ safe_id "//a:b" = "__a_b"
    ∧ safe_id "//c:d" = "__c_d"
    ∧ jGetD (jIndex (jGetD (get_graph aggC5) "edges" .null) 0) "source" .null = .str "__a_b"
    ∧ jGetD (jIndex (jGetD (get_graph aggC5) "edges" .null) 0) "target" .null = .str "__c_d" :=
  ⟨rfl, rfl, rfl, rfl, rfl, rfl⟩

/-- C6 (code_bug).  On a target-configured event whose payload carries deps
as a list of label strings, the services handler raises (its line 97 reads
the local configured_payload before assignment), so the dependency is never
recorded there; the backend handler accepts the string shape, and a second
event with the object-with-label shape unions in its label without removing
the existing entry. -/
theorem c6_dependency_shapes_eval :
    svc_handle_target_configured c6Event c6IdPayload initAgg
      = .error "UnboundLocalError: local variable configured_payload referenced before assignment"
    ∧ (aget "//a:b" (handle_target_configured c6Event c6IdPayload initAgg).targets).map
        (fun t => t.dependencies) = some ["//c:d"]
    ∧ (aget "//a:b" (handle_target_configured c6EventB c6IdPayload
          (handle_target_configured c6Event c6IdPayload initAgg)).targets).map
        (fun t => t.dependencies) = some ["//c:d", "//e:f"] :=
  ⟨rfl, rfl, rfl⟩

/-- Counterexample for C7 as stated: the graph node for target
"//pkg/sub:name" has group "" - element 1 of the "/"-split, which is the
empty segment between the two leading slashes - not "pkg". -/
theorem c7_counterexample :
    jGetD (jIndex (jGetD (get_graph aggC7) "nodes" .null) 0) "group" .null = .str ""
    ∧ ("" : String) ≠ "pkg" :=
  ⟨rfl, by decide⟩

/-- C7 (corrected, amended part).  For label "//pkg/sub:name" the exported
node id is "__pkg_sub_name" as claimed, but the group is the element at
index 1 of label.split("/") - the empty string for canonical labels that
begin with two slashes - with "root" used only when the split has no second
element. -/
theorem c7_sanitize_amended :
    jGetD (jIndex (jGetD (get_graph aggC7) "nodes" .null) 0) "id" .null
      = .str "__pkg_sub_name"
    ∧ jGetD (jIndex (jGetD (get_graph aggC7) "nodes" .null) 0) "group" .null = .str ""
    ∧ splitSlash "//pkg/sub:name" = ["", "", "pkg", "sub:name"]
    ∧ nodeGroup "//pkg/sub:name" = ""
    ∧ nodeGroup "name" = "root" :=
  ⟨rfl, rfl, rfl, rfl, rfl⟩

/-- C8 (code_bug).  The per-line loop of parse_stream does skip every
JSON-malformed line and leaves the fresh aggregate with zero targets, tests,
actions and resource points - but parse_stream never reaches the loop: its
first statement calls self.reset(), undefined on the services BEPParser, so
the orchestrator's generic except marks the job FAILED with the
AttributeError text instead of COMPLETED. -/
theorem c8_malformed_stream_eval :
    statusOf (process_fetched_job ["oops not json"] "f" [("f", recProcessing)]) "f"
      = some .failed
    ∧ errorOf (process_fetched_job ["oops not json"] "f" [("f", recProcessing)]) "f"
      = some (some "AttributeError: BEPParser object has no attribute reset")
    ∧ svc_parse_stream_loop jloadsNone ["oops not json"] initAgg = initAgg
    ∧ (svc_parse_stream_loop jloadsNone ["oops not json"] initAgg).targets.length = 0
    ∧ (svc_parse_stream_loop jloadsNone ["oops not json"] initAgg).test_results.length = 0
    ∧ (svc_parse_stream_loop jloadsNone ["oops not json"] initAgg).action_count = 0
    ∧ (svc_parse_stream_loop jloadsNone ["oops not json"] initAgg).resource_series = [] :=
  ⟨by decide, by decide, rfl, rfl, rfl, rfl, rfl⟩

/-- C9 (confirmed).  Each exporter is a pure function of the aggregate:
calling it twice (the second call on the state returned by the first)
produces identical byte strings, and the returned state is the input
state. -/
theorem c9_exporters_deterministic (p : Aggregate) :
    (export_summary p).1 = (export_summary ((export_summary p).2)).1
    ∧ (export_summary p).2 = p
    ∧ (export_graph p).1 = (export_graph ((export_graph p).2)).1
    ∧ (export_graph p).2 = p
    ∧ (export_resource_usage p).1 = (export_resource_usage ((export_resource_usage p).2)).1
    ∧ (export_resource_usage p).2 = p :=
  ⟨rfl, rfl, rfl, rfl, rfl, rfl⟩

/-- C10 (confirmed).  An event whose only recognized resource field is
progress.resourceUsage.cpuUsage = 0 appends no point (the zero is falsy in
the `or` chain), while a bare timeMillis = 0 is kept by the isinstance
check and appends the point with time 0 and null cpu/memory. -/
theorem c10_zero_value_semantics (p : Aggregate) :
    maybe_extract_resource_point
        (.obj [("progress", .obj [("resourceUsage", .obj [("cpuUsage", .num 0)])])]) p = p
    ∧ (maybe_extract_resource_point (.obj [("timeMillis", .num 0)]) p).resource_series
        = p.resource_series ++ [{ time := some 0, cpu := none, memory := none }] :=
  ⟨rfl, rfl⟩
